import Mathlib

/-!
Verification of the Daily Queue lifecycle and taste-aggregation engine of the
`meli` application.

The relevant program code lives in `src/src/lib/dailyApi.ts` (daily queue
construction, rating/skip tracking, completion detection, mood classification,
playlist materialization) and `src/app/(tabs)/profile.tsx` (Bayesian-smoothed
taste ranking).  JavaScript numbers are embedded as rationals (`ℚ`); all
scores in the program are small integers 1..10, so rational arithmetic agrees
with the program's floating-point arithmetic on every input considered here.
The remote relational store (Supabase) is embedded as an explicit state record
(`DB`); each API function becomes a state-passing function `DB → DB × result`.
JavaScript's `Array.prototype.sort` (guaranteed stable with a consistent
comparator) is embedded as `List.insertionSort`, which is stable; a stable
sort under a total preorder is extensionally unique, so this is faithful.
-/

namespace Meli

/-! ### Mood classification (`computeMood`, dailyApi.ts lines 99-114) -/

/-- Source: `const avg = scores.reduce((s, x) => s + x, 0) / n` (line 103). -/
def mean (scores : List ℚ) : ℚ :=
  scores.foldl (fun s x => s + x) 0 / scores.length

/-- Source: `const variance = scores.reduce((s, x) => s + (x - avg) ** 2, 0) / n`
(line 104, population variance). -/
def popVariance (scores : List ℚ) : ℚ :=
  scores.foldl (fun s x => s + (x - mean scores) ^ 2) 0 / scores.length

/-- Embedding of `computeMood` (dailyApi.ts lines 99-114).  The source
computes `stdDev = Math.sqrt(variance)` and tests `stdDev >= 2.5`; since both
sides are nonnegative this is equivalent to `variance >= 2.5 ^ 2`, which is
how the test is written here (`Real.sqrt` is noncomputable in Lean). -/
def computeMood (scores : List ℚ) : String :=
  if scores.length = 0 then "mixed"
  else if 2.5 ^ 2 ≤ popVariance scores then "mixed"
  else if 8 ≤ mean scores then "hype"
  else if 6.5 ≤ mean scores then "bright"
  else if 4.5 ≤ mean scores then "chill"
  else "moody"

/-! ### Bayesian shrinkage score (`bayesianScore`, profile.tsx lines 47-51) -/

/-- Source: `const BAYES_M = 3` (profile.tsx line 47). -/
def BAYES_M : ℚ := 3

/-- Source: `(total + BAYES_M * globalAvg) / (count + BAYES_M)`
(profile.tsx lines 49-51). -/
def bayesianScore (count total globalAvg : ℚ) : ℚ :=
  (total + BAYES_M * globalAvg) / (count + BAYES_M)

/-! ### Data model

Row types for the tables touched by `dailyApi.ts` (schema in the
`supabase/migrations` sources).  Generated UUIDs are modelled as naturals
drawn from a `nextId` counter; timestamps as a natural-number clock `now`;
the `date` column as an opaque string compared to `DB.today` (the value of
`todayDate()` during the requests under consideration). -/

structure QueueRow where
  id : ℕ
  user_id : String
  date : String
  mood : Option String
  completed_at : Option ℕ
deriving DecidableEq

structure QueueItemRow where
  id : ℕ
  queue_id : ℕ
  item_id : ℕ
  position : ℕ
  score : Option ℚ
  skipped : Bool
  rated_at : Option ℕ
deriving DecidableEq

structure ItemRow where
  id : ℕ
  spotify_id : String
  name : String
  image_url : Option String
  preview_url : Option String
  artists_json : List String
  genres_json : List String
deriving DecidableEq

structure PlaylistRow where
  id : ℕ
  queue_id : ℕ
  user_id : String
  mood : String
deriving DecidableEq

structure PlaylistItemRow where
  id : ℕ
  playlist_id : ℕ
  item_id : ℕ
  score : Option ℚ
  position : ℕ
deriving DecidableEq

structure RatingRow where
  user_id : String
  item_id : ℕ
  score : ℚ
deriving DecidableEq

/-- The slice of the remote store touched by `dailyApi.ts`, for one session.
Reads are modelled as always succeeding; the writes whose failure the claims
depend on (the rate/skip item update, the items upsert, the queue insert)
take explicit failure flags.  The `daily_playlists` insert and the
`daily_queue_items` insert are modelled as succeeding. -/
structure DB where
  queues : List QueueRow
  queueItems : List QueueItemRow
  items : List ItemRow
  playlists : List PlaylistRow
  playlistItems : List PlaylistItemRow
  ratings : List RatingRow
  today : String
  now : ℕ
  nextId : ℕ
deriving DecidableEq

/-! ### Queue reads (`ensureDailyQueue` / `getTodayQueue`, dailyApi.ts) -/

/-- The `daily_queues` lookup `.eq('user_id', user.id).eq('date', todayDate()).single()`
used by every function in `dailyApi.ts`.  The `(user_id, date)` uniqueness
constraint makes `.single()` equivalent to `find?`. -/
def findTodayQueue (userId : String) (db : DB) : Option QueueRow :=
  db.queues.find? (fun q => q.user_id == userId && q.date == db.today)

/-- Embedding of `getTodayQueue` (dailyApi.ts lines 259-284): today's queue
plus its items ordered by `position` (a stable order-by). -/
def getTodayQueue (userId : String) (db : DB) :
    Option (QueueRow × List QueueItemRow) :=
  match findTodayQueue userId db with
  | none => none
  | some q =>
    some (q, (db.queueItems.filter (fun i => i.queue_id == q.id)).insertionSort
      (fun a b => a.position ≤ b.position))

/-! ### Completion detection and playlist materialization
(`checkAndGeneratePlaylist`, dailyApi.ts lines 421-489) -/

/-- Source line 450: `items.every((i) => i.score !== null || i.skipped)`. -/
def isResolved (i : QueueItemRow) : Bool :=
  i.score.isSome || i.skipped

/-- The `daily_queue_items` rows of one queue (the
`.eq('queue_id', queue.id)` read, dailyApi.ts lines 443-446). -/
def itemsOfQueue (db : DB) (queue : QueueRow) : List QueueItemRow :=
  db.queueItems.filter (fun i => i.queue_id == queue.id)

/-- Source line 454: `items.filter((i) => i.score !== null && !i.skipped)`. -/
def ratedItemsOf (items : List QueueItemRow) : List QueueItemRow :=
  items.filter (fun i => i.score.isSome && !i.skipped)

/-- Source line 455: `ratedItems.map((i) => i.score as number)`; every element
of `ratedItemsOf` has `score.isSome`, so the cast-map is a `filterMap`. -/
def scoresOf (items : List QueueItemRow) : List ℚ :=
  (ratedItemsOf items).filterMap (fun i => i.score)

/-- Source line 475: `[...ratedItems].sort((a, b) => (b.score ?? 0) - (a.score ?? 0))`
— a stable sort, descending by `score ?? 0`. -/
def sortByScoreDesc (l : List QueueItemRow) : List QueueItemRow :=
  l.insertionSort (fun a b => b.score.getD 0 ≤ a.score.getD 0)

/-- Source lines 478-485: the bulk insert of `daily_playlist_items`, one row
per sorted rated item, position = index in sorted order. -/
def mkPlaylistItems (plId firstId : ℕ) (sorted : List QueueItemRow) :
    List PlaylistItemRow :=
  sorted.enum.map (fun p =>
    { id := firstId + p.1, playlist_id := plId, item_id := p.2.item_id,
      score := p.2.score, position := p.1 })

/-- Embedding of `checkAndGeneratePlaylist` (dailyApi.ts lines 421-489).
Returns the new store state and the `playlist` field of the JS result object
(`{}` ↦ `none`, `{ playlist }` ↦ `some`). -/
def checkAndGeneratePlaylist (userId : String) (db : DB) :
    DB × Option PlaylistRow :=
  match findTodayQueue userId db with
  | none => (db, none)
  | some queue =>
    match queue.completed_at with
    | some _ =>
      (db, db.playlists.find? (fun p => p.queue_id == queue.id))
    | none =>
      let items := itemsOfQueue db queue
      if items.all isResolved then
        let ratedItems := ratedItemsOf items
        let mood := computeMood (scoresOf items)
        let db1 := { db with queues := db.queues.map (fun (q : QueueRow) =>
          if q.id == queue.id then
            { q with completed_at := some db.now, mood := some mood }
          else q) }
        let pl : PlaylistRow :=
          { id := db.nextId, queue_id := queue.id, user_id := userId, mood := mood }
        let sorted := sortByScoreDesc ratedItems
        ({ db1 with
            playlists := db1.playlists ++ [pl],
            playlistItems := db1.playlistItems ++ mkPlaylistItems pl.id (db.nextId + 1) sorted,
            nextId := db.nextId + 1 + sorted.length }, some pl)
      else (db, none)

/-! ### Rating and skipping (`rateDailyItem` / `skipDailyItem`, dailyApi.ts) -/

/-- The `ratings` upsert with `onConflict: 'user_id,item_id'`
(dailyApi.ts lines 308-310). -/
def upsertRating (rs : List RatingRow) (u : String) (itemId : ℕ) (s : ℚ) :
    List RatingRow :=
  if rs.any (fun r => r.user_id == u && r.item_id == itemId) then
    rs.map (fun r =>
      if r.user_id == u && r.item_id == itemId then { r with score := s } else r)
  else rs ++ [{ user_id := u, item_id := itemId, score := s }]

/-- Embedding of `rateDailyItem` (dailyApi.ts lines 290-313) for an
authenticated session.  `updateFails` is the error outcome of the
`daily_queue_items` update; on failure the row is not written and the
function returns `null` (`none`) without the ratings mirror-write or the
completion check.  The JS result is `null` ↦ `none`,
`{ playlist? }` ↦ `some (playlist?)`. -/
def rateDailyItem (userId : String) (updateFails : Bool) (db : DB)
    (queueItemId itemId : ℕ) (score : ℚ) : DB × Option (Option PlaylistRow) :=
  if updateFails then (db, none)
  else
    let db1 := { db with queueItems := db.queueItems.map (fun (i : QueueItemRow) =>
      if i.id == queueItemId then
        { i with score := some score, rated_at := some db.now }
      else i) }
    let db2 := { db1 with ratings := upsertRating db1.ratings userId itemId score }
    let r := checkAndGeneratePlaylist userId db2
    (r.1, some r.2)

/-- Embedding of `skipDailyItem` (dailyApi.ts lines 316-330) for an
authenticated session.  The update's error is not inspected (best-effort): on
failure the row is unchanged but the completion check still runs and its
result is returned. -/
def skipDailyItem (userId : String) (updateFails : Bool) (db : DB)
    (queueItemId : ℕ) : DB × Option (Option PlaylistRow) :=
  let db1 := if updateFails then db
    else { db with queueItems := db.queueItems.map (fun i =>
      if i.id == queueItemId then { i with skipped := true } else i) }
  let r := checkAndGeneratePlaylist userId db1
  (r.1, some r.2)

/-! ### Queue construction (`ensureDailyQueue`, dailyApi.ts lines 145-256) -/

/-- A Spotify track as delivered by the candidate-source helpers in
`spotify.ts`. -/
structure Track where
  id : String
  name : String
  artists : List String
  imageUrl : Option String
  previewUrl : Option String
deriving DecidableEq

/-- One iteration of the Fisher–Yates loop body (dailyApi.ts lines 82-83):
`[a[i], a[j]] = [a[j], a[i]]`. -/
def listSwap {α : Type} (l : List α) (i j : ℕ) : List α :=
  if h : i < l.length ∧ j < l.length then
    (l.set i (l.get ⟨j, h.2⟩)).set j (l.get ⟨i, h.1⟩)
  else l

/-- The Fisher–Yates loop of `shuffle` (dailyApi.ts lines 79-86), counting
`i` down to 1; `r` supplies the randomness: `j = Math.floor(Math.random() *
(i + 1))` is modelled as `r i % (i + 1)`, which ranges over `0..i` exactly as
the source expression does. -/
def shuffleAux {α : Type} (r : ℕ → ℕ) : ℕ → List α → List α
  | 0, l => l
  | i + 1, l => shuffleAux r i (listSwap l (i + 1) (r (i + 1) % (i + 2)))

/-- Embedding of `shuffle` (dailyApi.ts lines 79-86): full Fisher–Yates from
index `length - 1` down to 1. -/
def shuffle {α : Type} (r : ℕ → ℕ) (l : List α) : List α :=
  shuffleAux r (l.length - 1) l

/-- Embedding of the dedup filter (dailyApi.ts lines 184-189): keep a track
iff its Spotify id has not been seen yet (`seen` is the accumulated set). -/
def dedupById (seen : List String) : List Track → List Track
  | [] => []
  | t :: ts =>
    if t.id ∈ seen then dedupById seen ts
    else t :: dedupById (t.id :: seen) ts

/-- The external collaborators and failure outcomes `ensureDailyQueue`
depends on: the stored Spotify token, the fetched candidate lists, the Deezer
genre lookup, the randomness source, and the error outcomes of the two
checked persistence writes. -/
structure SourceEnv where
  token : Option String
  allTop : List Track
  recentlyPlayed : List Track
  topArtistIds : List String
  recommendations : List Track
  deezerGenres : String → String → List String
  rng : ℕ → ℕ
  upsertFails : Bool
  queueInsertFails : Bool

/-- Source lines 177-181: `[...allTop, ...recentlyPlayed]`, extended by the
recommendations when `topArtistIds.length` is truthy. -/
def candidatePool (env : SourceEnv) : List Track :=
  let c := env.allTop ++ env.recentlyPlayed
  if env.topArtistIds.length ≠ 0 then c ++ env.recommendations else c

/-- Source lines 183-192: dedup by Spotify id keeping first occurrences, then
`shuffle(candidates).slice(0, 10)`. -/
def selectDaily (r : ℕ → ℕ) (pool : List Track) : List Track :=
  (shuffle r (dedupById [] pool)).take 10

/-- One row of the `items` upsert with `onConflict: 'spotify_id,type'` and
`ignoreDuplicates: false` (dailyApi.ts lines 201-215): update-on-conflict
keyed by Spotify id (all rows here have type `'track'`). -/
def upsertItem (db : DB) (t : Track) (genres : List String) : DB :=
  if db.items.any (fun it => it.spotify_id == t.id) then
    { db with items := db.items.map (fun it =>
      if it.spotify_id == t.id then
        { it with name := t.name,
                  image_url := t.imageUrl,
                  preview_url := t.previewUrl,
                  artists_json := t.artists,
                  genres_json := genres }
      else it) }
  else
    let row : ItemRow := { id := db.nextId,
                           spotify_id := t.id,
                           name := t.name,
                           image_url := t.imageUrl,
                           preview_url := t.previewUrl,
                           artists_json := t.artists,
                           genres_json := genres }
    { db with items := db.items ++ [row], nextId := db.nextId + 1 }

/-- The bulk `items` upsert for all selected tracks, with the Deezer genre
lookup `fetchDeezerGenres(t.name, t.artists[0] ?? '')` per track
(dailyApi.ts lines 196-215). -/
def upsertItems (db : DB) (env : SourceEnv) (selected : List Track) : DB :=
  selected.foldl
    (fun d t => upsertItem d t (env.deezerGenres t.name (t.artists.headD ""))) db

/-- Embedding of `ensureDailyQueue` (dailyApi.ts lines 145-256) for an
authenticated session.  All of the source's `return null` exits map to
`none`: missing token (line 168), empty selection (line 193), items-upsert
error (line 219), empty `itemRows` re-read (line 228) and queue-insert error
(line 242). -/
def ensureDailyQueue (userId : String) (env : SourceEnv) (db : DB) :
    DB × Option (QueueRow × List QueueItemRow) :=
  match findTodayQueue userId db with
  | some _ => (db, getTodayQueue userId db)
  | none =>
    match env.token with
    | none => (db, none)
    | some _ =>
      let selected := selectDaily env.rng (candidatePool env)
      if selected.length = 0 then (db, none)
      else if env.upsertFails then (db, none)
      else
        let db1 := upsertItems db env selected
        let itemRows := db1.items.filter (fun it =>
          selected.any (fun t => t.id == it.spotify_id))
        if itemRows.length = 0 then (db1, none)
        else if env.queueInsertFails then (db1, none)
        else
          let queue : QueueRow := { id := db1.nextId,
                                    user_id := userId,
                                    date := db.today,
                                    mood := none,
                                    completed_at := none }
          let db2 := { db1 with queues := db1.queues ++ [queue],
                                nextId := db1.nextId + 1 }
          let pairs := selected.enum.filterMap (fun p =>
            (itemRows.find? (fun it => it.spotify_id == p.2.id)).map
              (fun it => (p.1, it.id)))
          let rows := pairs.enum.map (fun (q : ℕ × (ℕ × ℕ)) =>
            ({ id := db2.nextId + q.1, queue_id := queue.id, item_id := q.2.2,
               position := q.2.1, score := none, skipped := false,
               rated_at := none } : QueueItemRow))
          let db3 := { db2 with queueItems := db2.queueItems ++ rows,
                                nextId := db2.nextId + rows.length }
          (db3, getTodayQueue userId db3)

/-! ### Taste ranking (`computeTopArtists` / `computeTopGenres`,
profile.tsx lines 53-123) -/

/-- One row of the joined `ratings` query consumed by the profile screen:
a score plus the rated item's artists, genres and image. -/
structure ProfileRating where
  score : ℚ
  artists_json : List String
  genres_json : List String
  image_url : Option String
deriving DecidableEq

/-- The per-entity accumulator `{ count, total, imageUrl }` of the JS
aggregation object. -/
structure Agg where
  count : ℕ
  total : ℚ
  imageUrl : Option String
deriving DecidableEq

/-- The loop body for one (entity, rating) pair (profile.tsx lines 63-70 /
101-108): `count++`, `total += r.score`, and
`if (!map[a].imageUrl && r.items?.image_url) map[a].imageUrl = ...`. -/
def bumpAgg (d : Agg) (score : ℚ) (img : Option String) : Agg :=
  { count := d.count + 1,
    total := d.total + score,
    imageUrl := match d.imageUrl with
                | some u => some u
                | none => img }

/-- Update of one key of the aggregation object.  A JS object with string
keys preserves insertion order, so the object is modelled as an association
list extended at the back on first insertion. -/
def updateEntry (m : List (String × Agg)) (a : String) (score : ℚ)
    (img : Option String) : List (String × Agg) :=
  if m.any (fun e => e.1 == a) then
    m.map (fun e => if e.1 == a then (e.1, bumpAgg e.2 score img) else e)
  else m ++ [(a, { count := 1, total := score, imageUrl := img })]

/-- The aggregation loops of `computeTopArtists` / `computeTopGenres`
(profile.tsx lines 58-71 / 98-109); `keysOf` selects `artists_json` or
`genres_json`. -/
def buildTasteMap (keysOf : ProfileRating → List String)
    (ratings : List ProfileRating) : List (String × Agg) :=
  ratings.foldl
    (fun m r => (keysOf r).foldl (fun m2 a => updateEntry m2 a r.score r.image_url) m)
    []

/-- Source lines 54-56 / 94-96:
`ratings.length > 0 ? ratings.reduce((s, r) => s + r.score, 0) / ratings.length : 6.5`. -/
def globalAvgOf (ratings : List ProfileRating) : ℚ :=
  if 0 < ratings.length then
    ratings.foldl (fun s r => s + r.score) 0 / ratings.length
  else 6.5

structure ArtistCell where
  name : String
  count : ℕ
  avgScore : ℚ
  imageUrl : Option String
deriving DecidableEq

/-- `Object.entries(map).map(...)` for artists (profile.tsx lines 72-73). -/
def artistCellsOf (ratings : List ProfileRating) : List ArtistCell :=
  (buildTasteMap (fun r => r.artists_json) ratings).map (fun e =>
    { name := e.1, count := e.2.count, avgScore := e.2.total / e.2.count,
      imageUrl := e.2.imageUrl })

/-- The sort key `bayesianScore(c.count, c.count * c.avgScore, globalAvg)`
used in the comparators (profile.tsx lines 74-77 and 118-121). -/
def artistAdj (g : ℚ) (c : ArtistCell) : ℚ :=
  bayesianScore c.count (c.count * c.avgScore) g

/-- Embedding of `computeTopArtists` (profile.tsx lines 53-79).  The JS
comparator `(a, b) => adj(b) - adj(a)` in a stable sort orders descending by
the adjusted score and keeps ties in insertion order; `insertionSort` with
`adj b ≤ adj a` is exactly that stable sort. -/
def computeTopArtists (ratings : List ProfileRating) : List ArtistCell :=
  let globalAvg := globalAvgOf ratings
  ((artistCellsOf ratings).insertionSort
    (fun a b => artistAdj globalAvg b ≤ artistAdj globalAvg a)).take 7

/-- Source profile.tsx line 89: the JS char class `\w` is `[A-Za-z0-9_]`. -/
def isWordChar (c : Char) : Bool :=
  c.isAlphanum || c == '_'

/-- Recursion for `toTitleCase`; the Bool records whether the previous
character was a word character (so the current one starts a `\b\w` match). -/
def titleCaseAux : Bool → List Char → List Char
  | _, [] => []
  | prev, c :: cs =>
    (if isWordChar c && !prev then c.toUpper else c) :: titleCaseAux (isWordChar c) cs

/-- Embedding of `toTitleCase` (profile.tsx lines 89-91):
`s.replace(/\b\w/g, (c) => c.toUpperCase())`. -/
def toTitleCase (s : String) : String :=
  ⟨titleCaseAux false s.data⟩

structure GenreCell where
  genre : String
  name : String
  count : ℕ
  avgScore : ℚ
  imageUrl : Option String
deriving DecidableEq

/-- `Object.entries(map).map(...)` for genres (profile.tsx lines 110-117). -/
def genreCellsOf (ratings : List ProfileRating) : List GenreCell :=
  (buildTasteMap (fun r => r.genres_json) ratings).map (fun e =>
    { genre := e.1, name := toTitleCase e.1, count := e.2.count,
      avgScore := e.2.total / e.2.count, imageUrl := e.2.imageUrl })

/-- The genre sort key (profile.tsx lines 118-121). -/
def genreAdj (g : ℚ) (c : GenreCell) : ℚ :=
  bayesianScore c.count (c.count * c.avgScore) g

/-- Embedding of `computeTopGenres` (profile.tsx lines 93-123). -/
def computeTopGenres (ratings : List ProfileRating) : List GenreCell :=
  let globalAvg := globalAvgOf ratings
  ((genreCellsOf ratings).insertionSort
    (fun a b => genreAdj globalAvg b ≤ genreAdj globalAvg a)).take 10

/-- The tie-break policy asserted by the specification (written from the
spec's words, for comparison with the code): whenever two displayed entities
have equal adjusted scores, the earlier one has the higher raw count, and on
equal counts the higher raw average. -/
def tieOrderedBy {α : Type} (adj : α → ℚ) (count : α → ℕ) (avg : α → ℚ)
    (cells : List α) : Prop :=
  cells.Pairwise (fun x y => adj x = adj y →
    count y ≤ count x ∧ (count x = count y → avg y ≤ avg x))

/-- The number of distinct Spotify ids in a candidate pool (spec wording
`distinct_candidate_count` for claim C5). -/
def distinctIdCount (pool : List Track) : ℕ :=
  ((pool.map Track.id).dedup).length

/-! ### Concrete inputs used by counterexamples and witnesses -/

/-- A store holding nothing, before any queue exists. -/
def emptyDB : DB :=
  { queues := [], queueItems := [], items := [], playlists := [],
    playlistItems := [], ratings := [], today := "2026-02-19", now := 7,
    nextId := 1 }

def sampleTrack : Track :=
  { id := "sp1", name := "Song", artists := ["Artist"], imageUrl := none,
    previewUrl := none }

/-- Environment with no stored Spotify token but a perfectly good candidate
pool. -/
def envNoCredential : SourceEnv :=
  { token := none, allTop := [sampleTrack], recentlyPlayed := [],
    topArtistIds := [], recommendations := [], deezerGenres := fun _ _ => [],
    rng := fun _ => 0, upsertFails := false, queueInsertFails := false }

/-- Environment with a token but an empty candidate pool (build failure). -/
def envEmptyPool : SourceEnv :=
  { token := some "tok", allTop := [], recentlyPlayed := [],
    topArtistIds := [], recommendations := [], deezerGenres := fun _ _ => [],
    rng := fun _ => 0, upsertFails := false, queueInsertFails := false }

/-- A queue row for user `u` on the day stored in `emptyDB.today`. -/
def qRow : QueueRow :=
  { id := 1, user_id := "u", date := "2026-02-19", mood := none,
    completed_at := none }

/-- Store with one queue holding a single scored (resolved) item. -/
def dbC2 : DB :=
  { emptyDB with queues := [qRow],
                 queueItems := [⟨1, 1, 11, 0, some 2, false, none⟩],
                 nextId := 5 }

/-- Store with one queue holding four scored items with scores 7, 9, 7, 10
(the playlist-ordering example of the specification). -/
def dbC6 : DB :=
  { emptyDB with queues := [qRow],
                 queueItems := [⟨1, 1, 21, 0, some 7, false, none⟩,
                                ⟨2, 1, 22, 1, some 9, false, none⟩,
                                ⟨3, 1, 23, 2, some 7, false, none⟩,
                                ⟨4, 1, 24, 3, some 10, false, none⟩],
                 nextId := 5 }

/-- Store with one queue holding a scored item and an item that is marked
skipped while also carrying a (non-null) score of 10. -/
def dbC7 : DB :=
  { emptyDB with queues := [qRow],
                 queueItems := [⟨1, 1, 11, 0, some 2, false, none⟩,
                                ⟨2, 1, 12, 1, some 10, true, none⟩],
                 nextId := 5 }

/-- Ratings history producing two artists (and two genres) with equal
adjusted scores but different raw counts: artist `A` has one score 5, artist
`B` has scores 4 and 6; the global mean is 5, so both adjusted scores are 5,
and the count-1 artist `A` was encountered first. -/
def exRatings : List ProfileRating :=
  [ { score := 5, artists_json := ["A"], genres_json := ["a"], image_url := none },
    { score := 4, artists_json := ["B"], genres_json := ["b"], image_url := none },
    { score := 6, artists_json := ["B"], genres_json := ["b"], image_url := none } ]

end Meli

namespace Meli

lemma foldl_add_nonneg (f : ℚ → ℚ) (hf : ∀ x, 0 ≤ f x) :
    ∀ (l : List ℚ) (c : ℚ), 0 ≤ c → 0 ≤ l.foldl (fun s x => s + f x) c
  | [], _, hc => hc
  | x :: l, c, hc =>
    foldl_add_nonneg f hf l (c + f x) (add_nonneg hc (hf x))

lemma popVariance_nonneg (scores : List ℚ) : 0 ≤ popVariance scores := by
  have h := foldl_add_nonneg (fun x => (x - mean scores) ^ 2)
    (fun x => sq_nonneg _) scores 0 le_rfl
  exact div_nonneg h (Nat.cast_nonneg _)

end Meli

namespace Meli

/-! ### C1: computeMood implements the stated score-distribution policy -/

/-- C1.  `computeMood` implements the stated score-distribution policy: the
empty list yields `mixed`; a non-empty list yields `mixed` whenever the
population standard deviation is ≥ 2.5, and otherwise buckets by mean
(≥ 8 → `hype`, ≥ 6.5 → `bright`, ≥ 4.5 → `chill`, else `moody`); and the four
concrete examples from the specification evaluate as stated. -/
theorem C1_computeMood_policy (scores : List ℚ) (h : scores ≠ []) :
    computeMood [] = "mixed"
    ∧ ((2.5 : ℝ) ≤ Real.sqrt ((popVariance scores : ℚ) : ℝ) →
        computeMood scores = "mixed")
    ∧ (Real.sqrt ((popVariance scores : ℚ) : ℝ) < 2.5 →
        computeMood scores =
          (if 8 ≤ mean scores then "hype"
           else if 6.5 ≤ mean scores then "bright"
           else if 4.5 ≤ mean scores then "chill"
           else "moody"))
    ∧ computeMood [9, 9, 9, 9] = "hype"
    ∧ computeMood [1, 10, 1, 10] = "mixed"
    ∧ computeMood [5, 6, 5, 6] = "chill" := by
  have h0 : ¬ scores.length = 0 := by
    simpa [List.length_eq_zero] using h
  have hv : (0 : ℚ) ≤ popVariance scores := popVariance_nonneg scores
  have hvR : (0 : ℝ) ≤ ((popVariance scores : ℚ) : ℝ) := by exact_mod_cast hv
  have key : (2.5 : ℝ) ≤ Real.sqrt ((popVariance scores : ℚ) : ℝ)
      ↔ (2.5 : ℚ) ^ 2 ≤ popVariance scores := by
    rw [Real.le_sqrt (by norm_num) hvR,
      show (2.5 : ℝ) = ((2.5 : ℚ) : ℝ) by norm_num]
    exact_mod_cast Iff.rfl
  refine ⟨rfl, ?_, ?_,
    by norm_num [computeMood, mean, popVariance],
    by norm_num [computeMood, mean, popVariance],
    by norm_num [computeMood, mean, popVariance]⟩
  · intro hs
    have hvar : (2.5 : ℚ) ^ 2 ≤ popVariance scores := key.mp hs
    unfold computeMood
    rw [if_neg h0, if_pos hvar]
  · intro hs
    have hvar : ¬ (2.5 : ℚ) ^ 2 ≤ popVariance scores :=
      fun hc => absurd (key.mpr hc) (not_le.mpr hs)
    unfold computeMood
    rw [if_neg h0, if_neg hvar]

/-- Witness for C1 at the concrete input `[9, 9, 9, 9]`. -/
theorem C1_computeMood_policy_witness :
    ([9, 9, 9, 9] : List ℚ) ≠ []
    ∧ (computeMood [] = "mixed"
    ∧ ((2.5 : ℝ) ≤ Real.sqrt ((popVariance [9, 9, 9, 9] : ℚ) : ℝ) →
        computeMood [9, 9, 9, 9] = "mixed")
    ∧ (Real.sqrt ((popVariance [9, 9, 9, 9] : ℚ) : ℝ) < 2.5 →
        computeMood [9, 9, 9, 9] =
          (if 8 ≤ mean [9, 9, 9, 9] then "hype"
           else if 6.5 ≤ mean [9, 9, 9, 9] then "bright"
           else if 4.5 ≤ mean [9, 9, 9, 9] then "chill"
           else "moody"))
    ∧ computeMood [9, 9, 9, 9] = "hype"
    ∧ computeMood [1, 10, 1, 10] = "mixed"
    ∧ computeMood [5, 6, 5, 6] = "chill") :=
  ⟨by simp, C1_computeMood_policy [9, 9, 9, 9] (by simp)⟩

/-! ### C9: shrinkage ranking monotonicity -/

/-- C9 counterexample.  The claim asserts that increasing the occurrence
count while holding the raw average fixed *strictly* moves the adjusted score
away from the global mean.  When the raw average equals the global mean
(here both 5), the adjusted score equals the global mean at every count, so
the distance stays 0 and is not strictly increased: the claim fails at
count 1 → 10, avg = global_mean = 5. -/
theorem C9_counterexample :
    bayesianScore 1 (1 * 5) 5 = 5 ∧ bayesianScore 10 (10 * 5) 5 = 5
    ∧ ¬ (|bayesianScore 10 (10 * 5) 5 - 5| > |bayesianScore 1 (1 * 5) 5 - 5|) := by
  norm_num [bayesianScore, BAYES_M]

/-- C9 as amended: provided the raw average differs from the global mean,
holding the raw average fixed and increasing the occurrence count strictly
moves the adjusted score away from the global mean and toward the raw
average; and (as stated in the claim) `adjusted(count=1, avg=10) <
adjusted(count=10, avg=10)` whenever `global_mean < 10`. -/
theorem C9_amended (c₁ c₂ a g : ℚ) (h0 : 0 ≤ c₁) (hc : c₁ < c₂) (ha : a ≠ g) :
    |bayesianScore c₂ (c₂ * a) g - g| > |bayesianScore c₁ (c₁ * a) g - g|
    ∧ |bayesianScore c₂ (c₂ * a) g - a| < |bayesianScore c₁ (c₁ * a) g - a|
    ∧ (g < 10 → bayesianScore 1 (1 * 10) g < bayesianScore 10 (10 * 10) g) := by
  have h0' : (0 : ℚ) ≤ c₂ := le_of_lt (lt_of_le_of_lt h0 hc)
  have h3₁ : (0 : ℚ) < c₁ + 3 := by linarith
  have h3₂ : (0 : ℚ) < c₂ + 3 := by linarith
  have esub : ∀ c : ℚ, 0 ≤ c →
      bayesianScore c (c * a) g - g = c * (a - g) / (c + 3) := by
    intro c hcn
    have hne : c + 3 ≠ 0 := by linarith
    unfold bayesianScore BAYES_M
    field_simp
    ring
  have esub2 : ∀ c : ℚ, 0 ≤ c →
      bayesianScore c (c * a) g - a = 3 * (g - a) / (c + 3) := by
    intro c hcn
    have hne : c + 3 ≠ 0 := by linarith
    unfold bayesianScore BAYES_M
    field_simp
    ring
  have habs : ∀ c : ℚ, (hcn : 0 ≤ c) →
      |bayesianScore c (c * a) g - g| = c * |a - g| / (c + 3) := by
    intro c hcn
    have h3 : (0 : ℚ) < c + 3 := by linarith
    rw [esub c hcn, abs_div, abs_mul, abs_of_nonneg hcn, abs_of_pos h3]
  have habs2 : ∀ c : ℚ, (hcn : 0 ≤ c) →
      |bayesianScore c (c * a) g - a| = 3 * |g - a| / (c + 3) := by
    intro c hcn
    have h3 : (0 : ℚ) < c + 3 := by linarith
    rw [esub2 c hcn, abs_div, abs_mul, abs_of_pos (by norm_num : (0:ℚ) < 3),
      abs_of_pos h3]
  have hd : (0 : ℚ) < |a - g| := abs_pos.mpr (sub_ne_zero.mpr ha)
  have hd2 : (0 : ℚ) < |g - a| := abs_pos.mpr (sub_ne_zero.mpr (Ne.symm ha))
  refine ⟨?_, ?_, ?_⟩
  · rw [gt_iff_lt, habs c₁ h0, habs c₂ h0', div_lt_div_iff₀ h3₁ h3₂]
    nlinarith [mul_pos (sub_pos.mpr hc) hd]
  · rw [habs2 c₁ h0, habs2 c₂ h0', div_lt_div_iff₀ h3₂ h3₁]
    nlinarith [mul_pos (sub_pos.mpr hc) hd2]
  · intro hg
    unfold bayesianScore BAYES_M
    rw [div_lt_div_iff₀ (by norm_num) (by norm_num)]
    linarith

/-! ### Helper lemmas about ensureDailyQueue -/

lemma getTodayQueue_eq_some (u : String) (db : DB)
    (x : QueueRow × List QueueItemRow) (h : getTodayQueue u db = some x) :
    findTodayQueue u db = some x.1 := by
  unfold getTodayQueue at h
  cases hf : findTodayQueue u db with
  | none => rw [hf] at h; exact absurd h (by simp)
  | some q =>
    rw [hf] at h
    simp only [Option.some.injEq] at h
    subst h
    rfl

lemma ensure_cases (u : String) (env : SourceEnv) (db : DB) :
    (ensureDailyQueue u env db).2 = none
    ∨ (ensureDailyQueue u env db).2
        = getTodayQueue u (ensureDailyQueue u env db).1 := by
  unfold ensureDailyQueue
  cases hf : findTodayQueue u db with
  | some q => right; rfl
  | none =>
    cases ht : env.token with
    | none => left; rfl
    | some tok =>
      by_cases h0 : (selectDaily env.rng (candidatePool env)).length = 0
      · left; simp [h0]
      · by_cases h1 : env.upsertFails
        · left; simp [h0, h1]
        · by_cases h2 : ((upsertItems db env (selectDaily env.rng (candidatePool env))).items.filter
            (fun it => (selectDaily env.rng (candidatePool env)).any
              (fun t => t.id == it.spotify_id))).length = 0
          · left; simp [h0, h1, h2]
          · by_cases h3 : env.queueInsertFails
            · left; simp [h0, h1, h2, h3]
            · right; simp [h0, h1, h2, h3]

/-! ### Helper lemmas about checkAndGeneratePlaylist -/

lemma check_of_completed (u : String) (db : DB) (q : QueueRow) (t : ℕ)
    (hq : findTodayQueue u db = some q) (hc : q.completed_at = some t) :
    checkAndGeneratePlaylist u db
      = (db, db.playlists.find? (fun p => p.queue_id == q.id)) := by
  simp [checkAndGeneratePlaylist, hq, hc]

lemma check_of_not_all_done (u : String) (db : DB) (q : QueueRow)
    (hq : findTodayQueue u db = some q) (hc : q.completed_at = none)
    (hnd : (itemsOfQueue db q).all isResolved = false) :
    checkAndGeneratePlaylist u db = (db, none) := by
  simp [checkAndGeneratePlaylist, hq, hc, hnd]

lemma check_of_all_done (u : String) (db : DB) (q : QueueRow)
    (hq : findTodayQueue u db = some q) (hc : q.completed_at = none)
    (hd : (itemsOfQueue db q).all isResolved = true) :
    checkAndGeneratePlaylist u db
      = ({ db with
            queues := db.queues.map (fun (qq : QueueRow) =>
              if qq.id == q.id then
                { qq with completed_at := some db.now,
                          mood := some (computeMood (scoresOf (itemsOfQueue db q))) }
              else qq),
            playlists := db.playlists ++
              [{ id := db.nextId, queue_id := q.id, user_id := u,
                 mood := computeMood (scoresOf (itemsOfQueue db q)) }],
            playlistItems := db.playlistItems ++
              mkPlaylistItems db.nextId (db.nextId + 1)
                (sortByScoreDesc (ratedItemsOf (itemsOfQueue db q))),
            nextId := db.nextId + 1
              + (sortByScoreDesc (ratedItemsOf (itemsOfQueue db q))).length },
         some { id := db.nextId, queue_id := q.id, user_id := u,
                mood := computeMood (scoresOf (itemsOfQueue db q)) }) := by
  simp [checkAndGeneratePlaylist, hq, hc, hd]

lemma find?_append_right {α : Type} (l₁ l₂ : List α) (p : α → Bool)
    (h : l₁.find? p = none) : (l₁ ++ l₂).find? p = l₂.find? p := by
  induction l₁ with
  | nil => rfl
  | cons a l ih =>
    cases hp : p a with
    | true => simp [List.find?_cons, hp] at h
    | false =>
      simp only [List.cons_append, List.find?_cons, hp] at h ⊢
      exact ih h

lemma findTodayQueue_after_complete (u : String) (db : DB) (q : QueueRow)
    (hq : findTodayQueue u db = some q) (m : String) :
    (db.queues.map (fun (qq : QueueRow) =>
      if qq.id == q.id then
        { qq with completed_at := some db.now, mood := some m }
      else qq)).find? (fun qq => qq.user_id == u && qq.date == db.today)
    = some { q with completed_at := some db.now, mood := some m } := by
  rw [List.find?_map]
  have hpf : ((fun (qq : QueueRow) => qq.user_id == u && qq.date == db.today) ∘
      (fun (qq : QueueRow) =>
        if qq.id == q.id then
          { qq with completed_at := some db.now, mood := some m }
        else qq))
      = (fun (qq : QueueRow) => qq.user_id == u && qq.date == db.today) := by
    funext qq
    by_cases hqq : qq.id = q.id <;> simp [hqq]
  rw [hpf]
  unfold findTodayQueue at hq
  rw [hq]
  simp

/-! ### C3: error distinction in ensureDailyQueue -/

/-- C3 counterexample.  `ensureDailyQueue` returns the very same value
(`null`, embedded as `none`) both when no Spotify credential is stored
(`envNoCredential`, which even has a non-empty candidate pool) and when a
credential is present but the build fails on an empty candidate pool
(`envEmptyPool`): the two outcomes are not distinguishable by the caller,
contradicting the claim. -/
theorem C3_counterexample :
    ensureDailyQueue "u" envNoCredential emptyDB = (emptyDB, none)
    ∧ ensureDailyQueue "u" envEmptyPool emptyDB = (emptyDB, none)
    ∧ (ensureDailyQueue "u" envNoCredential emptyDB).2
        = (ensureDailyQueue "u" envEmptyPool emptyDB).2 :=
  ⟨rfl, rfl, rfl⟩

/-- C3 as amended: `ensureDailyQueue` collapses the no-credential outcome
and every build-failure outcome (empty pool after dedup, items-upsert error)
into the same return value `null` (`none`), leaving the store unchanged; the
caller cannot distinguish the two situations from the result. -/
theorem C3_amended (userId : String) (env : SourceEnv) (db : DB)
    (hq : findTodayQueue userId db = none) :
    (env.token = none → ensureDailyQueue userId env db = (db, none))
    ∧ (env.token.isSome = true →
        selectDaily env.rng (candidatePool env) = [] →
        ensureDailyQueue userId env db = (db, none))
    ∧ (env.token.isSome = true → env.upsertFails = true →
        ensureDailyQueue userId env db = (db, none)) := by
  refine ⟨?_, ?_, ?_⟩
  · intro ht
    simp [ensureDailyQueue, hq, ht]
  · intro ht hsel
    obtain ⟨tok, htok⟩ := Option.isSome_iff_exists.mp ht
    simp [ensureDailyQueue, hq, htok, hsel]
  · intro ht hup
    obtain ⟨tok, htok⟩ := Option.isSome_iff_exists.mp ht
    by_cases hsel : selectDaily env.rng (candidatePool env) = []
    · simp [ensureDailyQueue, hq, htok, hsel]
    · simp [ensureDailyQueue, hq, htok, hup, List.length_eq_zero, hsel]

/-- Witness for C3's amended theorem: empty store, token present, empty
candidate pool. -/
theorem C3_amended_witness :
    findTodayQueue "u" emptyDB = none
    ∧ ((envEmptyPool.token = none →
        ensureDailyQueue "u" envEmptyPool emptyDB = (emptyDB, none))
    ∧ (envEmptyPool.token.isSome = true →
        selectDaily envEmptyPool.rng (candidatePool envEmptyPool) = [] →
        ensureDailyQueue "u" envEmptyPool emptyDB = (emptyDB, none))
    ∧ (envEmptyPool.token.isSome = true → envEmptyPool.upsertFails = true →
        ensureDailyQueue "u" envEmptyPool emptyDB = (emptyDB, none))) :=
  ⟨rfl, C3_amended "u" envEmptyPool emptyDB rfl⟩

/-! ### C4: ensureDailyQueue is idempotent per (user, day) -/

/-- C4.  If a queue already exists for the current user and today, the
ensure operation returns it through the read path `getTodayQueue` without
building anything (store unchanged); and whenever a call returns a queue
(in particular after a successful build), any subsequent call — under any
environment — returns the same queue identity and item set, again via
`getTodayQueue`, leaving the store unchanged. -/
theorem C4_idempotent_build (userId : String) (env env2 : SourceEnv) (db : DB) :
    ((findTodayQueue userId db).isSome = true →
      ensureDailyQueue userId env db = (db, getTodayQueue userId db))
    ∧ (∀ x, (ensureDailyQueue userId env db).2 = some x →
        ensureDailyQueue userId env2 (ensureDailyQueue userId env db).1
          = ((ensureDailyQueue userId env db).1, some x)
        ∧ getTodayQueue userId (ensureDailyQueue userId env db).1 = some x) := by
  constructor
  · intro hsome
    obtain ⟨q, hq⟩ := Option.isSome_iff_exists.mp hsome
    simp [ensureDailyQueue, hq]
  · intro x hx
    rcases ensure_cases userId env db with h | h
    · rw [h] at hx
      exact absurd hx (by simp)
    · have hg : getTodayQueue userId (ensureDailyQueue userId env db).1 = some x := by
        rw [← h, hx]
      generalize hE : ensureDailyQueue userId env db = E at hg ⊢
      have hf : findTodayQueue userId E.1 = some x.1 :=
        getTodayQueue_eq_some _ _ _ hg
      refine ⟨?_, hg⟩
      simp [ensureDailyQueue, hf, hg]

/-! ### C2: completion happens exactly once, only when all items resolve -/

lemma countP_lt_iff_not_all {α : Type} (l : List α) (p : α → Bool) :
    l.countP p < l.length ↔ l.all p = false := by
  have h1 : l.countP p = l.length ↔ ∀ a ∈ l, p a := List.countP_eq_length
  have h2 : l.countP p ≤ l.length := List.countP_le_length p
  constructor
  · intro hlt
    rw [Bool.eq_false_iff, Ne, List.all_eq_true]
    intro hall
    have := h1.mpr hall
    omega
  · intro hfalse
    rcases Nat.lt_or_ge (l.countP p) l.length with h | h
    · exact h
    · have heq : l.countP p = l.length := le_antisymm h2 h
      rw [Bool.eq_false_iff] at hfalse
      exact absurd (List.all_eq_true.mpr (h1.mp heq)) hfalse

/-- C2.  For a queue with `k` items: while the number of resolved items
(scored or skipped) is below `k`, `checkAndGeneratePlaylist` changes nothing
and returns no playlist; when all `k` are resolved it sets the mood and the
completion timestamp on the queue, appends exactly one playlist row, and any
later invocation short-circuits on the completion timestamp and returns the
already-existing playlist without recomputing or recreating anything; once
the timestamp is set, every invocation is such a read-only short-circuit. -/
theorem C2_completion_gating (userId : String) (db : DB) (q : QueueRow)
    (hq : findTodayQueue userId db = some q) :
    ((itemsOfQueue db q).countP isResolved < (itemsOfQueue db q).length →
      q.completed_at = none →
      checkAndGeneratePlaylist userId db = (db, none))
    ∧ ((itemsOfQueue db q).countP isResolved = (itemsOfQueue db q).length →
      q.completed_at = none →
      ∃ pl : PlaylistRow,
        (checkAndGeneratePlaylist userId db).2 = some pl
        ∧ pl.queue_id = q.id
        ∧ pl.mood = computeMood (scoresOf (itemsOfQueue db q))
        ∧ (checkAndGeneratePlaylist userId db).1.playlists = db.playlists ++ [pl]
        ∧ findTodayQueue userId (checkAndGeneratePlaylist userId db).1
            = some { q with completed_at := some db.now,
                            mood := some (computeMood (scoresOf (itemsOfQueue db q))) }
        ∧ checkAndGeneratePlaylist userId (checkAndGeneratePlaylist userId db).1
            = ((checkAndGeneratePlaylist userId db).1,
               (checkAndGeneratePlaylist userId db).1.playlists.find?
                 (fun p => p.queue_id == q.id))
        ∧ (db.playlists.find? (fun p => p.queue_id == q.id) = none →
            (checkAndGeneratePlaylist userId db).1.playlists.find?
              (fun p => p.queue_id == q.id) = some pl))
    ∧ (∀ t, q.completed_at = some t →
        checkAndGeneratePlaylist userId db
          = (db, db.playlists.find? (fun p => p.queue_id == q.id))) := by
  refine ⟨?_, ?_, ?_⟩
  · intro hlt hc
    exact check_of_not_all_done userId db q hq hc
      ((countP_lt_iff_not_all _ _).mp hlt)
  · intro heq hc
    have hd : (itemsOfQueue db q).all isResolved = true :=
      List.all_eq_true.mpr (List.countP_eq_length.mp heq)
    have hrw := check_of_all_done userId db q hq hc hd
    have h5 : findTodayQueue userId (checkAndGeneratePlaylist userId db).1
        = some { q with completed_at := some db.now,
                        mood := some (computeMood (scoresOf (itemsOfQueue db q))) } := by
      rw [hrw]
      exact findTodayQueue_after_complete userId db q hq _
    refine ⟨{ id := db.nextId, queue_id := q.id, user_id := userId,
              mood := computeMood (scoresOf (itemsOfQueue db q)) },
      ?_, rfl, rfl, ?_, h5, ?_, ?_⟩
    · rw [hrw]
    · rw [hrw]
    · exact check_of_completed userId (checkAndGeneratePlaylist userId db).1
        { q with completed_at := some db.now,
                 mood := some (computeMood (scoresOf (itemsOfQueue db q))) }
        db.now h5 rfl
    · intro hnone
      rw [hrw]
      show (db.playlists ++ [_]).find? _ = _
      rw [find?_append_right _ _ _ hnone]
      simp [List.find?_cons]
  · intro t hc
    exact check_of_completed userId db q t hq hc

/-- Witness for C2 on a one-item queue whose single item is scored. -/
theorem C2_completion_gating_witness :
    findTodayQueue "u" dbC2 = some qRow
    ∧ (((itemsOfQueue dbC2 qRow).countP isResolved < (itemsOfQueue dbC2 qRow).length →
      qRow.completed_at = none →
      checkAndGeneratePlaylist "u" dbC2 = (dbC2, none))
    ∧ ((itemsOfQueue dbC2 qRow).countP isResolved = (itemsOfQueue dbC2 qRow).length →
      qRow.completed_at = none →
      ∃ pl : PlaylistRow,
        (checkAndGeneratePlaylist "u" dbC2).2 = some pl
        ∧ pl.queue_id = qRow.id
        ∧ pl.mood = computeMood (scoresOf (itemsOfQueue dbC2 qRow))
        ∧ (checkAndGeneratePlaylist "u" dbC2).1.playlists = dbC2.playlists ++ [pl]
        ∧ findTodayQueue "u" (checkAndGeneratePlaylist "u" dbC2).1
            = some { qRow with completed_at := some dbC2.now,
                               mood := some (computeMood (scoresOf (itemsOfQueue dbC2 qRow))) }
        ∧ checkAndGeneratePlaylist "u" (checkAndGeneratePlaylist "u" dbC2).1
            = ((checkAndGeneratePlaylist "u" dbC2).1,
               (checkAndGeneratePlaylist "u" dbC2).1.playlists.find?
                 (fun p => p.queue_id == qRow.id))
        ∧ (dbC2.playlists.find? (fun p => p.queue_id == qRow.id) = none →
            (checkAndGeneratePlaylist "u" dbC2).1.playlists.find?
              (fun p => p.queue_id == qRow.id) = some pl))
    ∧ (∀ t, qRow.completed_at = some t →
        checkAndGeneratePlaylist "u" dbC2
          = (dbC2, dbC2.playlists.find? (fun p => p.queue_id == qRow.id)))) :=
  ⟨rfl, C2_completion_gating "u" dbC2 qRow rfl⟩

/-! ### C6: playlist contents, descending order, positions -/

lemma mkPlaylistItems_map_pair (plId fid : ℕ) (sorted : List QueueItemRow) :
    (mkPlaylistItems plId fid sorted).map (fun r => (r.item_id, r.score))
      = sorted.map (fun i => (i.item_id, i.score)) := by
  unfold mkPlaylistItems
  rw [List.map_map]
  have hcomp : ((fun (r : PlaylistItemRow) => (r.item_id, r.score)) ∘
      (fun (p : ℕ × QueueItemRow) =>
        ({ id := fid + p.1, playlist_id := plId, item_id := p.2.item_id,
           score := p.2.score, position := p.1 } : PlaylistItemRow)))
      = (fun (i : QueueItemRow) => (i.item_id, i.score)) ∘ Prod.snd := rfl
  rw [hcomp, ← List.map_map, List.enum_map_snd]

lemma mkPlaylistItems_map_position (plId fid : ℕ) (sorted : List QueueItemRow) :
    (mkPlaylistItems plId fid sorted).map (fun r => r.position)
      = List.range sorted.length := by
  unfold mkPlaylistItems
  rw [List.map_map]
  have hcomp : ((fun (r : PlaylistItemRow) => r.position) ∘
      (fun (p : ℕ × QueueItemRow) =>
        ({ id := fid + p.1, playlist_id := plId, item_id := p.2.item_id,
           score := p.2.score, position := p.1 } : PlaylistItemRow)))
      = (Prod.fst : ℕ × QueueItemRow → ℕ) := rfl
  rw [hcomp, List.enum_map_fst]

lemma sortByScoreDesc_perm (l : List QueueItemRow) :
    (sortByScoreDesc l).Perm l :=
  List.perm_insertionSort _ l

lemma sortByScoreDesc_sorted (l : List QueueItemRow) :
    ((sortByScoreDesc l).map (fun i => i.score.getD 0)).Pairwise
      (fun a b => b ≤ a) := by
  haveI : IsTotal QueueItemRow
      (fun a b => b.score.getD 0 ≤ a.score.getD 0) := ⟨fun a b => le_total _ _⟩
  haveI : IsTrans QueueItemRow
      (fun a b => b.score.getD 0 ≤ a.score.getD 0) :=
    ⟨fun a b c h1 h2 => le_trans h2 h1⟩
  have h := List.sorted_insertionSort
    (fun (a b : QueueItemRow) => b.score.getD 0 ≤ a.score.getD 0) l
  rw [List.pairwise_map]
  exact h

/-- C6.  On completion, the materialized playlist rows are exactly the
resolved, non-skipped, scored queue items (as (catalog item, score) pairs,
up to the sort's permutation), inserted in descending score order with
positions `0..k-1`; the playlist row itself is created even when zero items
qualify (empty item list, not an error); and on the concrete queue with
qualifying scores `[7, 9, 7, 10]` the inserted rows carry scores
`[10, 9, 7, 7]` at positions `0..3`. -/
theorem C6_playlist_materialization (userId : String) (db : DB) (q : QueueRow)
    (hq : findTodayQueue userId db = some q) (hc : q.completed_at = none)
    (hd : (itemsOfQueue db q).all isResolved = true) :
    (checkAndGeneratePlaylist userId db).2
      = some { id := db.nextId, queue_id := q.id, user_id := userId,
               mood := computeMood (scoresOf (itemsOfQueue db q)) }
    ∧ (checkAndGeneratePlaylist userId db).1.playlists
      = db.playlists ++ [{ id := db.nextId, queue_id := q.id, user_id := userId,
                           mood := computeMood (scoresOf (itemsOfQueue db q)) }]
    ∧ (checkAndGeneratePlaylist userId db).1.playlistItems
      = db.playlistItems ++ mkPlaylistItems db.nextId (db.nextId + 1)
          (sortByScoreDesc (ratedItemsOf (itemsOfQueue db q)))
    ∧ ((mkPlaylistItems db.nextId (db.nextId + 1)
          (sortByScoreDesc (ratedItemsOf (itemsOfQueue db q)))).map
            (fun r => (r.item_id, r.score))).Perm
        ((ratedItemsOf (itemsOfQueue db q)).map (fun i => (i.item_id, i.score)))
    ∧ ((sortByScoreDesc (ratedItemsOf (itemsOfQueue db q))).map
          (fun i => i.score.getD 0)).Pairwise (fun a b => b ≤ a)
    ∧ (mkPlaylistItems db.nextId (db.nextId + 1)
          (sortByScoreDesc (ratedItemsOf (itemsOfQueue db q)))).map
            (fun r => r.position)
      = List.range (ratedItemsOf (itemsOfQueue db q)).length
    ∧ (ratedItemsOf (itemsOfQueue db q) = [] →
        (checkAndGeneratePlaylist userId db).1.playlistItems = db.playlistItems)
    ∧ ((checkAndGeneratePlaylist "u" dbC6).1.playlistItems.map
          (fun r => (r.score, r.position)))
      = [(some 10, 0), (some 9, 1), (some 7, 2), (some 7, 3)] := by
  have hrw := check_of_all_done userId db q hq hc hd
  refine ⟨by rw [hrw], by rw [hrw], by rw [hrw], ?_, sortByScoreDesc_sorted _, ?_, ?_, ?_⟩
  · rw [mkPlaylistItems_map_pair]
    exact (sortByScoreDesc_perm _).map _
  · rw [mkPlaylistItems_map_position]
    unfold sortByScoreDesc
    rw [List.length_insertionSort]
  · intro h0
    rw [hrw]
    simp [h0, sortByScoreDesc, mkPlaylistItems]
  · simp only [checkAndGeneratePlaylist, findTodayQueue, itemsOfQueue,
      isResolved, ratedItemsOf, scoresOf, sortByScoreDesc, mkPlaylistItems,
      computeMood, mean, popVariance, dbC6, emptyDB, qRow, List.find?,
      List.filter, List.all, List.filterMap, List.insertionSort,
      List.orderedInsert, List.enum, List.enumFrom, List.map, List.foldl,
      String.reduceBEq, String.reduceEq, reduceIte]

/-- Witness for C6 on the four-item queue with scores `[7, 9, 7, 10]`. -/
theorem C6_playlist_materialization_witness :
    findTodayQueue "u" dbC6 = some qRow
    ∧ qRow.completed_at = none
    ∧ (itemsOfQueue dbC6 qRow).all isResolved = true
    ∧ ((checkAndGeneratePlaylist "u" dbC6).2
      = some { id := dbC6.nextId, queue_id := qRow.id, user_id := "u",
               mood := computeMood (scoresOf (itemsOfQueue dbC6 qRow)) }
    ∧ (checkAndGeneratePlaylist "u" dbC6).1.playlists
      = dbC6.playlists ++ [{ id := dbC6.nextId, queue_id := qRow.id, user_id := "u",
                             mood := computeMood (scoresOf (itemsOfQueue dbC6 qRow)) }]
    ∧ (checkAndGeneratePlaylist "u" dbC6).1.playlistItems
      = dbC6.playlistItems ++ mkPlaylistItems dbC6.nextId (dbC6.nextId + 1)
          (sortByScoreDesc (ratedItemsOf (itemsOfQueue dbC6 qRow)))
    ∧ ((mkPlaylistItems dbC6.nextId (dbC6.nextId + 1)
          (sortByScoreDesc (ratedItemsOf (itemsOfQueue dbC6 qRow)))).map
            (fun r => (r.item_id, r.score))).Perm
        ((ratedItemsOf (itemsOfQueue dbC6 qRow)).map (fun i => (i.item_id, i.score)))
    ∧ ((sortByScoreDesc (ratedItemsOf (itemsOfQueue dbC6 qRow))).map
          (fun i => i.score.getD 0)).Pairwise (fun a b => b ≤ a)
    ∧ (mkPlaylistItems dbC6.nextId (dbC6.nextId + 1)
          (sortByScoreDesc (ratedItemsOf (itemsOfQueue dbC6 qRow)))).map
            (fun r => r.position)
      = List.range (ratedItemsOf (itemsOfQueue dbC6 qRow)).length
    ∧ (ratedItemsOf (itemsOfQueue dbC6 qRow) = [] →
        (checkAndGeneratePlaylist "u" dbC6).1.playlistItems = dbC6.playlistItems)
    ∧ ((checkAndGeneratePlaylist "u" dbC6).1.playlistItems.map
          (fun r => (r.score, r.position)))
      = [(some 10, 0), (some 9, 1), (some 7, 2), (some 7, 3)]) :=
  ⟨rfl, rfl, rfl, C6_playlist_materialization "u" dbC6 qRow rfl rfl rfl⟩

/-! ### C7: skipped items contribute nothing -/

/-- C7.  A skipped queue item — even one carrying a non-null score — is
excluded from the rated-item set, hence contributes nothing to the mood
input and never reaches the materialized playlist rows; concretely, on a
queue whose second item is skipped while carrying score 10, the computed
mood ignores the 10 (scores `[2]` give `moody`) and the playlist contains
only the non-skipped item. -/
theorem C7_skip_exclusion (pre post : List QueueItemRow) (x : QueueItemRow)
    (hx : x.skipped = true) :
    ratedItemsOf (pre ++ x :: post) = ratedItemsOf (pre ++ post)
    ∧ scoresOf (pre ++ x :: post) = scoresOf (pre ++ post)
    ∧ computeMood (scoresOf (pre ++ x :: post))
        = computeMood (scoresOf (pre ++ post))
    ∧ x ∉ ratedItemsOf (pre ++ x :: post)
    ∧ (∀ plId fid : ℕ,
        mkPlaylistItems plId fid (sortByScoreDesc (ratedItemsOf (pre ++ x :: post)))
          = mkPlaylistItems plId fid (sortByScoreDesc (ratedItemsOf (pre ++ post))))
    ∧ (checkAndGeneratePlaylist "u" dbC7).2
        = some { id := dbC7.nextId, queue_id := qRow.id, user_id := "u",
                 mood := "moody" }
    ∧ ((checkAndGeneratePlaylist "u" dbC7).1.playlistItems.map
          (fun r => r.item_id)) = [11] := by
  have h1 : ratedItemsOf (pre ++ x :: post) = ratedItemsOf (pre ++ post) := by
    simp [ratedItemsOf, List.filter_append, List.filter_cons, hx]
  refine ⟨h1, ?_, ?_, ?_, ?_, ?_, ?_⟩
  · unfold scoresOf
    rw [h1]
  · unfold scoresOf
    rw [h1]
  · simp [ratedItemsOf, List.mem_filter, hx]
  · intro plId fid
    rw [h1]
  · norm_num [checkAndGeneratePlaylist, findTodayQueue, itemsOfQueue,
      isResolved, ratedItemsOf, scoresOf, sortByScoreDesc, mkPlaylistItems,
      computeMood, mean, popVariance, dbC7, emptyDB, qRow, List.find?,
      List.filter, List.all, List.filterMap, List.insertionSort,
      List.orderedInsert, List.enum, List.enumFrom, List.foldl]
  · norm_num [checkAndGeneratePlaylist, findTodayQueue, itemsOfQueue,
      isResolved, ratedItemsOf, scoresOf, sortByScoreDesc, mkPlaylistItems,
      computeMood, mean, popVariance, dbC7, emptyDB, qRow, List.find?,
      List.filter, List.all, List.filterMap, List.insertionSort,
      List.orderedInsert, List.enum, List.enumFrom, List.foldl]

/-- Witness for C7 with a skipped, score-10 item between two lists of
other items. -/
theorem C7_skip_exclusion_witness :
    (⟨2, 1, 12, 1, some 10, true, none⟩ : QueueItemRow).skipped = true
    ∧ (ratedItemsOf ([⟨1, 1, 11, 0, some 2, false, none⟩] ++
        (⟨2, 1, 12, 1, some 10, true, none⟩ : QueueItemRow) :: [])
      = ratedItemsOf ([⟨1, 1, 11, 0, some 2, false, none⟩] ++ [])
    ∧ scoresOf ([⟨1, 1, 11, 0, some 2, false, none⟩] ++
        (⟨2, 1, 12, 1, some 10, true, none⟩ : QueueItemRow) :: [])
      = scoresOf ([⟨1, 1, 11, 0, some 2, false, none⟩] ++ [])
    ∧ computeMood (scoresOf ([⟨1, 1, 11, 0, some 2, false, none⟩] ++
        (⟨2, 1, 12, 1, some 10, true, none⟩ : QueueItemRow) :: []))
      = computeMood (scoresOf ([⟨1, 1, 11, 0, some 2, false, none⟩] ++ []))
    ∧ (⟨2, 1, 12, 1, some 10, true, none⟩ : QueueItemRow) ∉
        ratedItemsOf ([⟨1, 1, 11, 0, some 2, false, none⟩] ++
          (⟨2, 1, 12, 1, some 10, true, none⟩ : QueueItemRow) :: [])
    ∧ (∀ plId fid : ℕ,
        mkPlaylistItems plId fid (sortByScoreDesc
          (ratedItemsOf ([⟨1, 1, 11, 0, some 2, false, none⟩] ++
            (⟨2, 1, 12, 1, some 10, true, none⟩ : QueueItemRow) :: [])))
          = mkPlaylistItems plId fid (sortByScoreDesc
              (ratedItemsOf ([⟨1, 1, 11, 0, some 2, false, none⟩] ++ []))))
    ∧ (checkAndGeneratePlaylist "u" dbC7).2
        = some { id := dbC7.nextId, queue_id := qRow.id, user_id := "u",
                 mood := "moody" }
    ∧ ((checkAndGeneratePlaylist "u" dbC7).1.playlistItems.map
          (fun r => r.item_id)) = [11]) :=
  ⟨rfl, C7_skip_exclusion [⟨1, 1, 11, 0, some 2, false, none⟩] []
    ⟨2, 1, 12, 1, some 10, true, none⟩ rfl⟩

/-! ### C5: bounded, deduplicated selection -/

lemma headSwap_perm {α : Type} :
    ∀ (xs : List α) (k : ℕ) (hk : k < xs.length) (x : α),
      (xs.get ⟨k, hk⟩ :: xs.set k x).Perm (x :: xs)
  | y :: ys, 0, _, x => List.Perm.swap x y ys
  | y :: ys, k + 1, hk, x => by
    have hk' : k < ys.length := by simpa using hk
    exact (List.Perm.swap y (ys.get ⟨k, hk'⟩) (ys.set k x)).trans
      (((headSwap_perm ys k hk' x).cons y).trans (List.Perm.swap x y ys))

lemma set_set_swap_perm {α : Type} :
    ∀ (l : List α) (i j : ℕ) (hi : i < l.length) (hj : j < l.length),
      ((l.set i (l.get ⟨j, hj⟩)).set j (l.get ⟨i, hi⟩)).Perm l
  | _ :: _, 0, 0, _, _ => List.Perm.refl _
  | y :: ys, 0, j + 1, _, hj => by
    have hj' : j < ys.length := by simpa using hj
    exact headSwap_perm ys j hj' y
  | y :: ys, i + 1, 0, hi, _ => by
    have hi' : i < ys.length := by simpa using hi
    exact headSwap_perm ys i hi' y
  | y :: ys, i + 1, j + 1, hi, hj => by
    have hi' : i < ys.length := by simpa using hi
    have hj' : j < ys.length := by simpa using hj
    exact (set_set_swap_perm ys i j hi' hj').cons y

lemma listSwap_perm {α : Type} (l : List α) (i j : ℕ) :
    (listSwap l i j).Perm l := by
  unfold listSwap
  by_cases h : i < l.length ∧ j < l.length
  · rw [dif_pos h]
    exact set_set_swap_perm l i j h.1 h.2
  · rw [dif_neg h]

lemma shuffleAux_perm {α : Type} (r : ℕ → ℕ) :
    ∀ (n : ℕ) (l : List α), (shuffleAux r n l).Perm l
  | 0, l => List.Perm.refl l
  | n + 1, l =>
    (shuffleAux_perm r n _).trans (listSwap_perm l (n + 1) (r (n + 1) % (n + 2)))

lemma shuffle_perm {α : Type} (r : ℕ → ℕ) (l : List α) :
    (shuffle r l).Perm l :=
  shuffleAux_perm r _ l

lemma dedupById_sublist : ∀ (seen : List String) (l : List Track),
    (dedupById seen l).Sublist l
  | _, [] => List.Sublist.refl []
  | seen, t :: ts => by
    unfold dedupById
    by_cases h : t.id ∈ seen
    · rw [if_pos h]
      exact (dedupById_sublist seen ts).cons t
    · rw [if_neg h]
      exact (dedupById_sublist (t.id :: seen) ts).cons₂ t

lemma mem_map_id_dedupById : ∀ (seen : List String) (l : List Track) (s : String),
    s ∈ (dedupById seen l).map Track.id ↔ (s ∈ l.map Track.id ∧ s ∉ seen)
  | seen, [], s => by simp [dedupById]
  | seen, t :: ts, s => by
    unfold dedupById
    by_cases h : t.id ∈ seen
    · rw [if_pos h, mem_map_id_dedupById seen ts s]
      simp only [List.map_cons, List.mem_cons]
      constructor
      · rintro ⟨hm, hs⟩
        exact ⟨Or.inr hm, hs⟩
      · rintro ⟨hm | hm, hs⟩
        · exact absurd (hm ▸ h) hs
        · exact ⟨hm, hs⟩
    · rw [if_neg h]
      simp only [List.map_cons, List.mem_cons,
        mem_map_id_dedupById (t.id :: seen) ts s]
      constructor
      · rintro (rfl | ⟨hm, hs⟩)
        · exact ⟨Or.inl rfl, h⟩
        · exact ⟨Or.inr hm, fun c => hs (Or.inr c)⟩
      · rintro ⟨rfl | hm, hs⟩
        · exact Or.inl rfl
        · by_cases hst : s = t.id
          · exact Or.inl hst
          · exact Or.inr ⟨hm, fun c => c.elim hst hs⟩

lemma nodup_map_id_dedupById : ∀ (seen : List String) (l : List Track),
    ((dedupById seen l).map Track.id).Nodup
  | _, [] => by simp [dedupById]
  | seen, t :: ts => by
    unfold dedupById
    by_cases h : t.id ∈ seen
    · rw [if_pos h]
      exact nodup_map_id_dedupById seen ts
    · rw [if_neg h]
      simp only [List.map_cons, List.nodup_cons]
      refine ⟨?_, nodup_map_id_dedupById (t.id :: seen) ts⟩
      intro hmem
      exact ((mem_map_id_dedupById (t.id :: seen) ts t.id).mp hmem).2
        (List.mem_cons_self _ _)

lemma find?_dedupById : ∀ (seen : List String) (l : List Track) (t : Track),
    t ∈ dedupById seen l → l.find? (fun u => u.id == t.id) = some t
  | _, [], t => by simp [dedupById]
  | seen, u :: us, t => by
    intro hmem
    unfold dedupById at hmem
    by_cases h : u.id ∈ seen
    · rw [if_pos h] at hmem
      have hid : t.id ∉ seen :=
        ((mem_map_id_dedupById seen us t.id).mp
          (List.mem_map_of_mem Track.id hmem)).2
      have hne : ¬ (u.id == t.id) = true := by
        simp only [beq_iff_eq]
        intro e
        exact hid (e ▸ h)
      have hstep : List.find? (fun v => v.id == t.id) (u :: us)
          = List.find? (fun v => v.id == t.id) us :=
        List.find?_cons_of_neg us hne
      rw [hstep]
      exact find?_dedupById seen us t hmem
    · rw [if_neg h] at hmem
      rcases List.mem_cons.mp hmem with rfl | hmem'
      · exact List.find?_cons_of_pos _ (by simp)
      · have hid : t.id ∉ u.id :: seen :=
          ((mem_map_id_dedupById (u.id :: seen) us t.id).mp
            (List.mem_map_of_mem Track.id hmem')).2
        have hne : ¬ (u.id == t.id) = true := by
          simp only [beq_iff_eq]
          intro e
          apply hid
          rw [← e]
          exact List.mem_cons_self u.id seen
        have hstep : List.find? (fun v => v.id == t.id) (u :: us)
            = List.find? (fun v => v.id == t.id) us :=
          List.find?_cons_of_neg us hne
        rw [hstep]
        exact find?_dedupById (u.id :: seen) us t hmem'

lemma dedupById_length (pool : List Track) :
    (dedupById [] pool).length = distinctIdCount pool := by
  have h1 : ((dedupById [] pool).map Track.id).Nodup :=
    nodup_map_id_dedupById [] pool
  have h2 : ((pool.map Track.id).dedup).Nodup := List.nodup_dedup _
  have h3 : ∀ s, s ∈ (dedupById [] pool).map Track.id
      ↔ s ∈ (pool.map Track.id).dedup := by
    intro s
    rw [List.mem_dedup, mem_map_id_dedupById]
    simp
  have hlen := ((List.perm_ext_iff_of_nodup h1 h2).mpr h3).length_eq
  rw [List.length_map] at hlen
  exact hlen

/-- C5.  For every candidate pool and randomness source, the selected track
list of a newly built queue has size `min 10 (distinct id count)`, never
exceeds 10 and contains no duplicate Spotify ids; and the dedup step keeps
exactly the first-seen occurrence of each id, in pool order (it is a
sublist of the pool each of whose members is the first pool element with
its id). -/
theorem C5_bounded_selection (r : ℕ → ℕ) (pool : List Track) :
    (selectDaily r pool).length = min 10 (distinctIdCount pool)
    ∧ (selectDaily r pool).length ≤ 10
    ∧ ((selectDaily r pool).map Track.id).Nodup
    ∧ (dedupById [] pool).Sublist pool
    ∧ ∀ t ∈ dedupById [] pool, pool.find? (fun u => u.id == t.id) = some t := by
  have hper : (shuffle r (dedupById [] pool)).Perm (dedupById [] pool) :=
    shuffle_perm r _
  refine ⟨?_, ?_, ?_, dedupById_sublist [] pool,
    fun t ht => find?_dedupById [] pool t ht⟩
  · unfold selectDaily
    rw [List.length_take, hper.length_eq, dedupById_length]
  · unfold selectDaily
    rw [List.length_take]
    exact min_le_left _ _
  · unfold selectDaily
    have hn : ((shuffle r (dedupById [] pool)).map Track.id).Nodup :=
      ((hper.map Track.id).nodup_iff).mpr (nodup_map_id_dedupById [] pool)
    rw [List.map_take]
    exact List.Nodup.sublist (List.take_sublist _ _) hn

/-! ### C8: rate fails hard, skip is best-effort -/

/-- C8.  When the `daily_queue_items` update fails, `rateDailyItem` returns
`null` and leaves the store untouched (in particular it performs neither the
ratings mirror-upsert nor the completion check), whereas `skipDailyItem`
still invokes the completion check on the unchanged store and returns its
result (not a failure). -/
theorem C8_rate_fails_hard_skip_best_effort (userId : String) (db : DB)
    (queueItemId itemId : ℕ) (score : ℚ) :
    rateDailyItem userId true db queueItemId itemId score = (db, none)
    ∧ skipDailyItem userId true db queueItemId =
        ((checkAndGeneratePlaylist userId db).1,
          some (checkAndGeneratePlaylist userId db).2)
    ∧ (skipDailyItem userId true db queueItemId).2.isSome = true :=
  ⟨rfl, rfl, rfl⟩

/-! ### C10: tie-breaking in the taste ranking -/

/-- C10 counterexample.  The sort comparators of `computeTopArtists` and
`computeTopGenres` compare only the shrinkage-adjusted score; there is no
count or raw-average tie-break.  On `exRatings`, artist `A` (count 1) and
artist `B` (count 2) have equal adjusted scores (both 5), and the stable
sort keeps first-encountered `A` ranked above `B`, contradicting the claimed
higher-count-first tie order; likewise for genres. -/
theorem C10_counterexample :
    computeTopArtists exRatings =
      [⟨"A", 1, 5, none⟩, ⟨"B", 2, 5, none⟩]
    ∧ computeTopGenres exRatings =
      [⟨"a", toTitleCase "a", 1, 5, none⟩, ⟨"b", toTitleCase "b", 2, 5, none⟩]
    ∧ artistAdj (globalAvgOf exRatings) ⟨"A", 1, 5, none⟩
        = artistAdj (globalAvgOf exRatings) ⟨"B", 2, 5, none⟩
    ∧ ¬ tieOrderedBy (artistAdj (globalAvgOf exRatings)) (fun c => c.count)
        (fun c => c.avgScore) (computeTopArtists exRatings)
    ∧ ¬ tieOrderedBy (genreAdj (globalAvgOf exRatings)) (fun c => c.count)
        (fun c => c.avgScore) (computeTopGenres exRatings) := by
  have hA : computeTopArtists exRatings =
      [⟨"A", 1, 5, none⟩, ⟨"B", 2, 5, none⟩] := by
    simp only [computeTopArtists, artistCellsOf, buildTasteMap, updateEntry,
      bumpAgg, globalAvgOf, artistAdj, exRatings, List.foldl, List.any,
      String.reduceBEq, String.reduceEq, Bool.or_false, Bool.false_or,
      if_true, if_false, reduceIte, List.map, List.insertionSort,
      List.orderedInsert, List.length, List.take]
    norm_num [bayesianScore, BAYES_M]
  have hG : computeTopGenres exRatings =
      [⟨"a", toTitleCase "a", 1, 5, none⟩, ⟨"b", toTitleCase "b", 2, 5, none⟩] := by
    simp only [computeTopGenres, genreCellsOf, buildTasteMap, updateEntry,
      bumpAgg, globalAvgOf, genreAdj, exRatings, List.foldl, List.any,
      String.reduceBEq, String.reduceEq, Bool.or_false, Bool.false_or,
      if_true, if_false, reduceIte, List.map, List.insertionSort,
      List.orderedInsert, List.length, List.take]
    norm_num [bayesianScore, BAYES_M]
  have hEq : artistAdj (globalAvgOf exRatings) ⟨"A", 1, 5, none⟩
      = artistAdj (globalAvgOf exRatings) ⟨"B", 2, 5, none⟩ := by
    norm_num [artistAdj, bayesianScore, BAYES_M, globalAvgOf, exRatings]
  refine ⟨hA, hG, hEq, ?_, ?_⟩
  · rw [hA]
    simp only [tieOrderedBy, List.pairwise_cons]
    intro h
    have h2 := h.1 ⟨"B", 2, 5, none⟩ (by simp) hEq
    simp at h2
  · rw [hG]
    simp only [tieOrderedBy, List.pairwise_cons]
    intro h
    have hEqG : genreAdj (globalAvgOf exRatings) ⟨"a", toTitleCase "a", 1, 5, none⟩
        = genreAdj (globalAvgOf exRatings) ⟨"b", toTitleCase "b", 2, 5, none⟩ := by
      norm_num [genreAdj, bayesianScore, BAYES_M, globalAvgOf, exRatings]
    have h2 := h.1 ⟨"b", toTitleCase "b", 2, 5, none⟩ (by simp) hEqG
    simp at h2

/-- C10 as amended: the sort comparator in the taste ranking depends only on
the shrinkage-adjusted score, so entities whose adjusted scores are equal
are not reordered at all — the stable sort keeps them in their
first-encountered aggregation order (no count or raw-average tie-break is
applied). -/
theorem C10_amended (ratings : List ProfileRating) (g : ℚ) :
    (∀ x y : ArtistCell, artistAdj g x = artistAdj g y →
      [x, y].Sublist (artistCellsOf ratings) →
      [x, y].Sublist ((artistCellsOf ratings).insertionSort
        (fun a b => artistAdj g b ≤ artistAdj g a)))
    ∧ (∀ x y : GenreCell, genreAdj g x = genreAdj g y →
      [x, y].Sublist (genreCellsOf ratings) →
      [x, y].Sublist ((genreCellsOf ratings).insertionSort
        (fun a b => genreAdj g b ≤ genreAdj g a))) := by
  constructor
  · intro x y hadj hsub
    exact List.pair_sublist_insertionSort (le_of_eq hadj.symm) hsub
  · intro x y hadj hsub
    exact List.pair_sublist_insertionSort (le_of_eq hadj.symm) hsub

/-- Witness for C9's amended theorem at count 1 → 2, avg 10, global mean 0. -/
theorem C9_amended_witness :
    (0 : ℚ) ≤ 1 ∧ (1 : ℚ) < 2 ∧ (10 : ℚ) ≠ 0
    ∧ (|bayesianScore 2 (2 * 10) 0 - 0| > |bayesianScore 1 (1 * 10) 0 - 0|
    ∧ |bayesianScore 2 (2 * 10) 0 - 10| < |bayesianScore 1 (1 * 10) 0 - 10|
    ∧ ((0 : ℚ) < 10 → bayesianScore 1 (1 * 10) 0 < bayesianScore 10 (10 * 10) 0)) :=
  ⟨by norm_num, by norm_num, by norm_num,
    C9_amended 1 2 10 0 (by norm_num) (by norm_num) (by norm_num)⟩

end Meli
